import Mathlib

/-!
# btwatch: battery watcher tray utility

A shallow embedding of `src/main.cpp`.  Handles (`HWND`, `HPOWERNOTIFY`,
`HMENU`, `ATOM`) are natural numbers with `0` for the null handle.  `BYTE`
fields are natural numbers; every statement below is proved for all natural
numbers and so in particular for the range `0..255`.  Calls into the host
platform are recorded as a list of `Event`s in program order, and what the
platform answers is an explicit argument of each operation.
-/

namespace Btwatch

/-! ## Constants -/

namespace BatteryFlag
def High : Nat := 1
def Low : Nat := 2
def Critical : Nat := 4
def Charging : Nat := 8
def NoSystemBattery : Nat := 128
def UnknownStatus : Nat := 255
end BatteryFlag

/-- Value of `BatteryLifePercentUnknown` in `Tasktray::checkBatteryStatus`. -/
def BatteryLifePercentUnknown : Nat := 255

/-- Value of `Tasktray::tasktrayIconID`. -/
def tasktrayIconID : Nat := 100

/-! ## Data model -/

/-- The struct `BatteryStatus`. -/
structure BatteryStatus where
  isCharging : Bool
  percent : Nat
deriving DecidableEq

/-- The two fields of the platform's `SYSTEM_POWER_STATUS` that the program reads. -/
structure SYSTEM_POWER_STATUS where
  BatteryFlag : Nat
  BatteryLifePercent : Nat
deriving DecidableEq

/-- The platform calls whose failure the program reports through `logErr`. -/
inductive Api where
  | LoadIconW
  | RegisterClassExW
  | CreateWindowExW
  | NotifyIconAdd
  | RegisterPowerSettingNotification
  | UnregisterPowerSettingNotification
  | NotifyIconDelete
  | DestroyWindow
  | UnregisterClassW
  | GetCursorPos
  | CreatePopupMenu
  | NotifyIconModify
  | GetMessageW
  | NoBattery
deriving DecidableEq

/-- A `GUID` as laid out by the platform headers. -/
structure GUID where
  Data1 : Nat
  Data2 : Nat
  Data3 : Nat
  Data4 : List Nat
deriving DecidableEq

/-- Platform constant `GUID_BATTERY_PERCENTAGE_REMAINING`
(a7ad8041-b45a-4cae-87a3-eecbb468a9e1). -/
def GUID_BATTERY_PERCENTAGE_REMAINING : GUID :=
  ⟨0xA7AD8041, 0xB45A, 0x4CAE, [0x87, 0xA3, 0xEE, 0xCB, 0xB4, 0x68, 0xA9, 0xE1]⟩

/-- Platform constant `GUID_ACDC_POWER_SOURCE`
(5d3e9a59-e9d5-4b00-a6bd-ff34ff516548). -/
def GUID_ACDC_POWER_SOURCE : GUID :=
  ⟨0x5D3E9A59, 0xE9D5, 0x4B00, [0xA6, 0xBD, 0xFF, 0x34, 0xFF, 0x51, 0x65, 0x48]⟩

/-- One observable action of the program, in the order the source performs it. -/
inductive Event where
  | loadIcon
  | registerClass
  | createWindow
  | notifyIconAdd (hwnd : Nat)
  | registerPower (hwnd : Nat) (guid : GUID)
  | unregisterPower (hpn : Nat)
  | notifyIconDelete (hwnd : Nat)
  | destroyWindow (hwnd : Nat)
  | unregisterClass (atom : Nat)
  | getCursorPos
  | createPopupMenu
  | appendMenu (hmenu : Nat) (id : Nat)
  | getActiveWindow
  | setForegroundWindow (hwnd : Nat)
  | trackPopupMenu (hmenu : Nat) (x y : Int) (hwnd : Nat)
  | destroyMenu (hmenu : Nat)
  | setActiveWindow (hwnd : Nat)
  | getSystemPowerStatus
  | notifyIconModify (hwnd : Nat)
  | consoleOut
  | postQuitMessage (code : Int)
  | defWindowProc (hwnd uMsg wParam : Nat) (lParam : Int)
  | getMessage
  | translateMessage
  | dispatchMessage
  | logErr (api : Api)
deriving DecidableEq

/-- The data members of class `Tasktray`. -/
structure Tasktray where
  hwnd_ : Nat
  hpn_ : Nat
  hpns_ : List Nat
  wndAtom_ : Option Nat
  prevBtStatus_ : BatteryStatus
deriving DecidableEq

/-! ## Battery threshold logic -/

/-- `Tasktray::checkBatteryStatus`.  `status` is what `GetSystemPowerStatus`
fills in and `modifyOk` is the result of `Shell_NotifyIconW(NIM_MODIFY, ..)`
should the program call it. -/
def checkBatteryStatus (t : Tasktray) (status : SYSTEM_POWER_STATUS) (modifyOk : Bool) :
    Tasktray × List Event :=
  if status.BatteryLifePercent = BatteryLifePercentUnknown then
    (t, [Event.getSystemPowerStatus])
  else
    let isCharging : Bool := decide ((status.BatteryFlag &&& BatteryFlag.Charging) ≠ 0)
    let balloon : List Event :=
      if decide (90 ≤ status.BatteryLifePercent) && isCharging &&
          (!t.prevBtStatus_.isCharging || decide (t.prevBtStatus_.percent < 90)) then
        [Event.consoleOut, Event.notifyIconModify t.hwnd_] ++
          (if modifyOk then [] else [Event.logErr Api.NotifyIconModify])
      else []
    ({ t with prevBtStatus_ := { isCharging := isCharging, percent := status.BatteryLifePercent } },
      Event.getSystemPowerStatus :: balloon)

/-- The "crossed 90%" balloon is a `Shell_NotifyIconW(NIM_MODIFY, ..)` call. -/
def isBalloon : Event → Bool
  | Event.notifyIconModify _ => true
  | _ => false

/-- A trace fires the notification when it contains the balloon call. -/
def fires (tr : List Event) : Bool := tr.any isBalloon

/-- Runs `checkBatteryStatus` once per reading, in order, threading the monitor
state.  Each reading comes with the result the balloon call would get.  The
result is the final state and the trace of each call. -/
def checkAll : Tasktray → List (SYSTEM_POWER_STATUS × Bool) → Tasktray × List (List Event)
  | t, [] => (t, [])
  | t, rd :: rest =>
      let r := checkBatteryStatus t rd.1 rd.2
      let r' := checkAll r.1 rest
      (r'.1, r.2 :: r'.2)

/-! ## Teardown -/

/-- What the platform answers to the release calls of one `terminate` run.
`unregisterPower i` is the result of the `i`-th pass of the loop over `hpns_`. -/
structure ReleaseOutcome where
  unregisterPower : Nat → Bool
  notifyIconDelete : Bool
  destroyWindow : Bool
  unregisterClass : Bool

/-- The loop `for (const auto& hpn : hpns_)` of `Tasktray::terminate`. -/
def unregisterEach (ok : Nat → Bool) : List Nat → List Event
  | [] => []
  | hpn :: rest =>
      (Event.unregisterPower hpn ::
        (if ok 0 then [] else [Event.logErr Api.UnregisterPowerSettingNotification])) ++
      unregisterEach (fun i => ok (i + 1)) rest

/-- `Tasktray::terminate`. -/
def terminate (t : Tasktray) (o : ReleaseOutcome) : Tasktray × List Event :=
  -- Unregister power change notification
  let s1 : Tasktray × List Event :=
    if t.hpns_ ≠ [] then
      ({ t with hpns_ := [] }, unregisterEach o.unregisterPower t.hpns_)
    else (t, [])
  -- Remove application icon from tasktray, only when the window is still valid
  let s2 : Tasktray × List Event :=
    if s1.1.hwnd_ ≠ 0 then
      (s1.1, s1.2 ++ (Event.notifyIconDelete s1.1.hwnd_ ::
        (if o.notifyIconDelete then [] else [Event.logErr Api.NotifyIconDelete])))
    else s1
  -- Close window
  let s3 : Tasktray × List Event :=
    if s2.1.hwnd_ ≠ 0 then
      ({ s2.1 with hwnd_ := 0 }, s2.2 ++ (Event.destroyWindow s2.1.hwnd_ ::
        (if o.destroyWindow then [] else [Event.logErr Api.DestroyWindow])))
    else s2
  -- Unregister window class
  match s3.1.wndAtom_ with
  | some atom =>
      ({ s3.1 with wndAtom_ := none }, s3.2 ++ (Event.unregisterClass atom ::
        (if o.unregisterClass then [] else [Event.logErr Api.UnregisterClassW])))
  | none => s3

/-! ## Setup and construction -/

/-- What the platform answers to the acquisition calls of `setup`: handles are
`0` on failure.  `hpn i` is the result of the `i`-th pass of the loop over the
two watched settings. -/
structure SetupOutcome where
  appIcon : Nat
  atom : Nat
  hwnd : Nat
  trayIcon : Nat
  iconAdded : Bool
  hpn : Nat → Nat

/-- The loop `for (const auto& guid : guids)` of `Tasktray::setup`: the result
is whether every pass succeeded, the grown `hpns_` and the trace. -/
def registerEach (hwnd : Nat) (hpn : Nat → Nat) : List GUID → List Nat → Bool × List Nat × List Event
  | [], hpns => (true, hpns, [])
  | guid :: rest, hpns =>
      if hpn 0 = 0 then
        (false, hpns, [Event.registerPower hwnd guid,
          Event.logErr Api.RegisterPowerSettingNotification])
      else
        let r := registerEach hwnd (fun i => hpn (i + 1)) rest (hpns ++ [hpn 0])
        (r.1, r.2.1, Event.registerPower hwnd guid :: r.2.2)

/-- `Tasktray::setup`: the result is the returned `bool`, the state and the trace. -/
def setup (t : Tasktray) (o : SetupOutcome) : Bool × Tasktray × List Event :=
  let tr0 : List Event :=
    Event.loadIcon :: (if o.appIcon = 0 then [Event.logErr Api.LoadIconW] else [])
  let t1 : Tasktray := { t with wndAtom_ := some o.atom }
  let tr1 : List Event := tr0 ++ [Event.registerClass]
  if o.atom = 0 then
    (false, t1, tr1 ++ [Event.logErr Api.RegisterClassExW])
  else
    let t2 : Tasktray := { t1 with hwnd_ := o.hwnd }
    let tr2 : List Event := tr1 ++ [Event.createWindow]
    if o.hwnd = 0 then
      (false, t2, tr2 ++ [Event.logErr Api.CreateWindowExW])
    else
      let tr3 : List Event := tr2 ++
        (Event.loadIcon :: (if o.trayIcon = 0 then [Event.logErr Api.LoadIconW] else [])) ++
        [Event.notifyIconAdd t2.hwnd_]
      if !o.iconAdded then
        (false, t2, tr3 ++ [Event.logErr Api.NotifyIconAdd])
      else
        let r := registerEach t2.hwnd_ o.hpn
          [GUID_BATTERY_PERCENTAGE_REMAINING, GUID_ACDC_POWER_SOURCE] t2.hpns_
        (r.1, { t2 with hpns_ := r.2.1 }, tr3 ++ r.2.2)

/-- The member initialisers of `Tasktray::Tasktray`. -/
def Tasktray.init : Tasktray :=
  { hwnd_ := 0, hpn_ := 0, hpns_ := [], wndAtom_ := none,
    prevBtStatus_ := { isCharging := false, percent := 0 } }

/-- The constructor `Tasktray::Tasktray`: `setup`, and `terminate` when it fails. -/
def Tasktray.construct (o : SetupOutcome) (r : ReleaseOutcome) : Tasktray × List Event :=
  let s := setup Tasktray.init o
  if !s.1 then
    let e := terminate s.2.1 r
    (e.1, s.2.2 ++ e.2)
  else (s.2.1, s.2.2)

/-- The destructor `Tasktray::~Tasktray`. -/
def Tasktray.destruct (t : Tasktray) (r : ReleaseOutcome) : Tasktray × List Event :=
  terminate t r

/-! ## Context menu -/

/-- What the platform answers during one `showMenu` run. -/
structure MenuOutcome where
  cursorOk : Bool
  point : Int × Int
  hmenu : Nat
  prevWin : Nat
  op : Int

/-- Underlying values of `enum class Cmd { None, Quit }`. -/
def Cmd.None : Int := 0
def Cmd.Quit : Int := 1

/-- `Tasktray::showMenu`.  The result is `none` when control reaches
`std::unreachable()`. -/
def showMenu (t : Tasktray) (m : MenuOutcome) (r : ReleaseOutcome) :
    Option (Tasktray × List Event) :=
  if !m.cursorOk then
    some (t, [Event.getCursorPos, Event.logErr Api.GetCursorPos])
  else if m.hmenu = 0 then
    some (t, [Event.getCursorPos, Event.createPopupMenu, Event.logErr Api.CreatePopupMenu])
  else
    let tr : List Event :=
      [Event.getCursorPos, Event.createPopupMenu, Event.appendMenu m.hmenu Cmd.Quit.toNat,
        Event.getActiveWindow, Event.setForegroundWindow t.hwnd_,
        Event.trackPopupMenu m.hmenu m.point.1 m.point.2 t.hwnd_]
    let after : Option (Tasktray × List Event) :=
      if m.op = Cmd.None then some (t, tr)
      else if m.op = Cmd.Quit then
        let e := terminate t r
        some (e.1, tr ++ e.2)
      else none
    match after with
    | none => none
    | some s =>
        some (s.1, s.2 ++ (Event.destroyMenu m.hmenu ::
          (if m.prevWin ≠ 0 then [Event.setActiveWindow m.prevWin] else [])))

/-! ## Message handling -/

def WM_DESTROY : Nat := 0x0002
def WM_CLOSE : Nat := 0x0010
def WM_LBUTTONUP : Int := 0x0202
def WM_RBUTTONUP : Int := 0x0205
def WM_POWERBROADCAST : Nat := 0x0218
def WM_APP : Nat := 0x8000
def PBT_POWERSETTINGCHANGE : Nat := 0x8013

/-- Value of `Tasktray::WM_TASKTRAY_CALLBACK`. -/
def WM_TASKTRAY_CALLBACK : Nat := WM_APP + 1

/-- What the platform answers while one message is handled.  `powerSetting`
reads the `PowerSetting` field of the `POWERBROADCAST_SETTING` at an address;
`reading1` and `reading2` serve the first and the second `checkBatteryStatus`
call site of `handleMessage`. -/
structure HandlerEnv where
  release : ReleaseOutcome
  menu : MenuOutcome
  powerSetting : Int → GUID
  reading1 : SYSTEM_POWER_STATUS × Bool
  reading2 : SYSTEM_POWER_STATUS × Bool
  defResult : Int

/-- `Tasktray::handleMessage`: the state, the trace and the returned `LRESULT`;
`none` when `showMenu` reaches `std::unreachable()`. -/
def handleMessage (t : Tasktray) (env : HandlerEnv) (uMsg wParam : Nat) (lParam : Int) :
    Option (Tasktray × List Event × Int) :=
  if uMsg = WM_CLOSE then
    let e := terminate t env.release
    some (e.1, e.2, 0)
  else if uMsg = WM_DESTROY then
    some (t, [Event.postQuitMessage 0], 0)
  else
    let body : Option (Tasktray × List Event) :=
      if uMsg = WM_TASKTRAY_CALLBACK then
        if wParam = tasktrayIconID then
          if lParam = WM_LBUTTONUP ∨ lParam = WM_RBUTTONUP then
            showMenu t env.menu env.release
          else some (t, [])
        else some (t, [])
      else if uMsg = WM_POWERBROADCAST then
        if wParam = PBT_POWERSETTINGCHANGE then
          let setting := env.powerSetting lParam
          let s1 : Tasktray × List Event :=
            if setting = GUID_BATTERY_PERCENTAGE_REMAINING then
              checkBatteryStatus t env.reading1.1 env.reading1.2
            else (t, [])
          let s2 : Tasktray × List Event :=
            if setting = GUID_ACDC_POWER_SOURCE then
              let c := checkBatteryStatus s1.1 env.reading2.1 env.reading2.2
              (c.1, s1.2 ++ c.2)
            else s1
          some s2
        else some (t, [])
      else some (t, [])
    match body with
    | none => none
    | some s =>
        some (s.1, s.2 ++ [Event.defWindowProc s.1.hwnd_ uMsg wParam lParam], env.defResult)

/-! ## Entry point -/

/-- One pass of the dispatch loop as the platform drives it: the value `r`
returned by `GetMessageW`, the fetched message, and the answers given while
that message is handled. -/
structure Fetched where
  r : Int
  hwnd : Nat
  uMsg : Nat
  wParam : Nat
  lParam : Int
  env : HandlerEnv

/-- How a run of the entry point ends, for a finite script of fetched messages:
it returns an exit status, or it is still blocked in `GetMessageW` when the
script is used up, or it has reached `std::unreachable()`. -/
inductive Run where
  | exited (code : Int) (trace : List Event)
  | waiting (trace : List Event)
  | unreachable (trace : List Event)

/-- The trace of a run. -/
def Run.trace : Run → List Event
  | Run.exited _ tr => tr
  | Run.waiting tr => tr
  | Run.unreachable tr => tr

/-- The exit status of a run that returned. -/
def Run.exitCode : Run → Option Int
  | Run.exited c _ => some c
  | _ => none

/-- The `for (;;)` loop of `wWinMain` followed by the `return 0`, at which the
monitor is destroyed.  `DispatchMessageW` reaches `handleMessage` for a message
addressed to the monitor's window. -/
def messageLoop (dtor : ReleaseOutcome) : Tasktray → List Event → List Fetched → Run
  | _, tr, [] => Run.waiting tr
  | t, tr, f :: rest =>
      if f.r = 0 then
        Run.exited 0 (tr ++ [Event.getMessage] ++ (Tasktray.destruct t dtor).2)
      else if f.r = -1 then
        Run.exited 0 (tr ++ [Event.getMessage, Event.logErr Api.GetMessageW] ++
          (Tasktray.destruct t dtor).2)
      else
        let tr1 := tr ++ [Event.getMessage, Event.translateMessage, Event.dispatchMessage]
        if f.hwnd ≠ 0 ∧ f.hwnd = t.hwnd_ then
          match handleMessage t f.env f.uMsg f.wParam f.lParam with
          | none => Run.unreachable tr1
          | some s => messageLoop dtor s.1 (tr1 ++ s.2.1) rest
        else messageLoop dtor t tr1 rest

/-- The entry point `wWinMain`.  `status` is what the startup
`GetSystemPowerStatus` call fills in. -/
def wWinMain (status : SYSTEM_POWER_STATUS) (o : SetupOutcome) (ctor dtor : ReleaseOutcome)
    (script : List Fetched) : Run :=
  if (status.BatteryFlag &&& BatteryFlag.NoSystemBattery) ≠ 0 then
    Run.exited 0 [Event.getSystemPowerStatus, Event.logErr Api.NoBattery]
  else
    let c := Tasktray.construct o ctor
    messageLoop dtor c.1 (Event.getSystemPowerStatus :: c.2) script

/-! ## Vocabulary of the specification -/

/-- A reading is evaluated when its percentage is known. -/
def known (st : SYSTEM_POWER_STATUS) : Bool := decide (st.BatteryLifePercent ≠ 255)

/-- The charging flag of a reading: the bit of value 8 of its battery flag. -/
def charging (st : SYSTEM_POWER_STATUS) : Bool := decide (st.BatteryFlag / 8 % 2 = 1)

/-- The condition "percent ≥ 90 and charging" of a reading. -/
def qualifies (st : SYSTEM_POWER_STATUS) : Bool :=
  decide (90 ≤ st.BatteryLifePercent) && charging st

/-- The same condition on a recorded status. -/
def BatteryStatus.qualifies (b : BatteryStatus) : Bool :=
  b.isCharging && decide (90 ≤ b.percent)

/-- The last evaluated reading of a sequence, if any. -/
def lastKnown (l : List (SYSTEM_POWER_STATUS × Bool)) : Option SYSTEM_POWER_STATUS :=
  ((l.map Prod.fst).filter known).getLast?

/-- Number of maximal runs of consecutive `true` in a list, each run counted
where it ends. -/
def countRuns : List Bool → Nat
  | [] => 0
  | false :: rest => countRuns rest
  | true :: [] => 1
  | true :: false :: rest => countRuns rest + 1
  | true :: true :: rest => countRuns (true :: rest)

/-- The firing flag of each call of a run of `checkAll`. -/
def firings (t : Tasktray) (rs : List (SYSTEM_POWER_STATUS × Bool)) : List Bool :=
  (checkAll t rs).2.map fires

/-- The sub-sequence of evaluated readings. -/
def evaluated (rs : List (SYSTEM_POWER_STATUS × Bool)) : List (SYSTEM_POWER_STATUS × Bool) :=
  rs.filter (fun rd => known rd.1)

/-- The firing flags of a run restricted to the calls on evaluated readings. -/
def firingsOnKnown (t : Tasktray) (rs : List (SYSTEM_POWER_STATUS × Bool)) : List Bool :=
  ((rs.zip (firings t rs)).filter (fun p => known p.1.1)).map Prod.snd

/-- Reading with the charging flag set. -/
def chg (percent : Nat) : SYSTEM_POWER_STATUS × Bool := (⟨BatteryFlag.Charging, percent⟩, true)

/-- Reading with no flag set. -/
def dis (percent : Nat) : SYSTEM_POWER_STATUS × Bool := (⟨0, percent⟩, true)

/-- Rising edges of the condition along a run: the flag of a reading is set
when it is evaluated, satisfies the condition, and the value `q` carried from the
previous evaluated reading does not. -/
def risingEdges : Bool → List (SYSTEM_POWER_STATUS × Bool) → List Bool
  | _, [] => []
  | q, rd :: rest =>
      if known rd.1 then (qualifies rd.1 && !q) :: risingEdges (qualifies rd.1) rest
      else false :: risingEdges q rest

/-- The calls that release a resource of the monitor. -/
def isRelease : Event → Bool
  | Event.unregisterPower _ => true
  | Event.notifyIconDelete _ => true
  | Event.destroyWindow _ => true
  | Event.unregisterClass _ => true
  | _ => false

/-- The release calls of a trace, in order. -/
def releaseCalls (tr : List Event) : List Event := tr.filter isRelease

/-- The release calls one teardown of a state attempts, in dependency order:
subscriptions, tray icon, window, window class. -/
def teardownOrder (t : Tasktray) : List Event :=
  t.hpns_.map Event.unregisterPower ++
    (if t.hwnd_ ≠ 0 then [Event.notifyIconDelete t.hwnd_, Event.destroyWindow t.hwnd_] else []) ++
    (match t.wndAtom_ with
      | some atom => [Event.unregisterClass atom]
      | none => [])

/-- The monitor is inert: no subscription, no window handle, no class token. -/
def inert (t : Tasktray) : Prop := t.hpns_ = [] ∧ t.hwnd_ = 0 ∧ t.wndAtom_ = none

/-- The first setup step whose acquisition call reports failure: window-class
registration is step 1, window creation 2, tray-icon add 3, first power
subscription 4, second power subscription 5. -/
def failedStep (o : SetupOutcome) : Option Nat :=
  if o.atom = 0 then some 1
  else if o.hwnd = 0 then some 2
  else if o.iconAdded = false then some 3
  else if o.hpn 0 = 0 then some 4
  else if o.hpn 1 = 0 then some 5
  else none

/-- The trace of constructing a monitor and later destroying it. -/
def lifeTrace (o : SetupOutcome) (r1 r2 : ReleaseOutcome) : List Event :=
  (Tasktray.construct o r1).2 ++ (Tasktray.destruct (Tasktray.construct o r1).1 r2).2

/-- The events a teardown can produce: release calls and failure reports. -/
def isTeardownEvent : Event → Bool
  | Event.logErr _ => true
  | e => isRelease e

/-- Setup outcome in which everything succeeds but the second power subscription. -/
def secondSubscriptionFails : SetupOutcome :=
  { appIcon := 1, atom := 7, hwnd := 9, trayIcon := 1, iconAdded := true,
    hpn := fun i => if i = 0 then 11 else 0 }

/-- Release outcome in which every release call succeeds. -/
def allReleased : ReleaseOutcome :=
  { unregisterPower := fun _ => true, notifyIconDelete := true, destroyWindow := true,
    unregisterClass := true }

/-- A monitor holding a window, two subscriptions and a class token. -/
def runningMonitor : Tasktray :=
  { hwnd_ := 9, hpn_ := 0, hpns_ := [11, 12], wndAtom_ := some 7,
    prevBtStatus_ := { isCharging := false, percent := 0 } }

/-- A menu run in which the user picks Quit. -/
def quitChosen : MenuOutcome :=
  { cursorOk := true, point := (3, 4), hmenu := 5, prevWin := 0, op := Cmd.Quit }

/-- The calls `showMenu` makes up to and including the popup, when the cursor
query and the menu creation succeed. -/
def menuOpened (t : Tasktray) (m : MenuOutcome) : List Event :=
  [Event.getCursorPos, Event.createPopupMenu, Event.appendMenu m.hmenu 1,
    Event.getActiveWindow, Event.setForegroundWindow t.hwnd_,
    Event.trackPopupMenu m.hmenu m.point.1 m.point.2 t.hwnd_]

/-- The calls `showMenu` makes after the popup returned. -/
def menuClosed (m : MenuOutcome) : List Event :=
  Event.destroyMenu m.hmenu :: (if m.prevWin ≠ 0 then [Event.setActiveWindow m.prevWin] else [])

/-- The popup call of a menu. -/
def isTrackPopup : Event → Bool
  | Event.trackPopupMenu _ _ _ _ => true
  | _ => false

/-- The call that destroys a menu. -/
def isDestroyMenu : Event → Bool
  | Event.destroyMenu _ => true
  | _ => false

/-- The message is the tray callback for this icon with a left- or
right-button-release sub-code. -/
def trayClick (uMsg wParam : Nat) (lParam : Int) : Prop :=
  uMsg = WM_TASKTRAY_CALLBACK ∧ wParam = tasktrayIconID ∧
    (lParam = WM_LBUTTONUP ∨ lParam = WM_RBUTTONUP)

/-- The message is a power broadcast with the power-setting-change code whose
setting is one of the two watched kinds. -/
def watchedPowerChange (env : HandlerEnv) (uMsg wParam : Nat) (lParam : Int) : Prop :=
  uMsg = WM_POWERBROADCAST ∧ wParam = PBT_POWERSETTINGCHANGE ∧
    (env.powerSetting lParam = GUID_BATTERY_PERCENTAGE_REMAINING ∨
      env.powerSetting lParam = GUID_ACDC_POWER_SOURCE)

/-- The calls that create a resource of the monitor or enter the dispatch loop. -/
def startsMonitor : Event → Bool
  | Event.registerClass => true
  | Event.createWindow => true
  | Event.notifyIconAdd _ => true
  | Event.registerPower _ _ => true
  | Event.getMessage => true
  | _ => false

/-- Handler answers in which the user picks Quit from the menu. -/
def quitEnv : HandlerEnv :=
  { release := allReleased, menu := quitChosen,
    powerSetting := fun _ => GUID_ACDC_POWER_SOURCE,
    reading1 := (⟨8, 92⟩, true), reading2 := (⟨8, 92⟩, true), defResult := 0 }

/-- Setup outcome in which every acquisition succeeds. -/
def allAcquired : SetupOutcome :=
  { appIcon := 1, atom := 7, hwnd := 9, trayIcon := 1, iconAdded := true,
    hpn := fun i => 11 + i }

/-! ## Theorems -/

/-- Masking `n` with `2 ^ i` is non-zero exactly when the bit of value `2 ^ i` is set in `n`. -/
theorem land_pow_ne_zero_iff (n i : Nat) : (n &&& 2 ^ i) ≠ 0 ↔ n / 2 ^ i % 2 = 1 := by
  rw [Nat.and_two_pow]
  rw [Nat.testBit_to_div_mod]
  by_cases h : n / 2 ^ i % 2 = 1
  · simp [h]
  · simp [h]

/-! ### Battery threshold logic -/

theorem charging_eq (st : SYSTEM_POWER_STATUS) :
    decide ((st.BatteryFlag &&& BatteryFlag.Charging) ≠ 0) = charging st := by
  have h := land_pow_ne_zero_iff st.BatteryFlag 3
  simp only [BatteryFlag.Charging, charging]
  norm_num at h
  by_cases hc : st.BatteryFlag / 8 % 2 = 1
  · simp [hc, h.mpr hc]
  · have : ¬ (st.BatteryFlag &&& 8) ≠ 0 := fun hh => hc (h.mp hh)
    simp [hc, this]

theorem checkBatteryStatus_unknown (t : Tasktray) (st : SYSTEM_POWER_STATUS) (ok : Bool)
    (h : known st = false) :
    checkBatteryStatus t st ok = (t, [Event.getSystemPowerStatus]) := by
  have h' : st.BatteryLifePercent = 255 := by simpa [known] using h
  simp [checkBatteryStatus, BatteryLifePercentUnknown, h']

theorem checkBatteryStatus_known_state (t : Tasktray) (st : SYSTEM_POWER_STATUS) (ok : Bool)
    (h : known st = true) :
    (checkBatteryStatus t st ok).1 =
      { t with prevBtStatus_ := ⟨charging st, st.BatteryLifePercent⟩ } := by
  have h' : st.BatteryLifePercent ≠ 255 := by simpa [known] using h
  simp only [checkBatteryStatus, BatteryLifePercentUnknown, h', if_false, charging_eq]

theorem checkBatteryStatus_known_fires (t : Tasktray) (st : SYSTEM_POWER_STATUS) (ok : Bool)
    (h : known st = true) :
    fires (checkBatteryStatus t st ok).2 = (qualifies st && !t.prevBtStatus_.qualifies) := by
  have h' : st.BatteryLifePercent ≠ 255 := by simpa [known] using h
  simp only [checkBatteryStatus, BatteryLifePercentUnknown, h', if_false, charging_eq, qualifies,
    BatteryStatus.qualifies]
  cases hq : decide (90 ≤ st.BatteryLifePercent) <;> cases hc : charging st <;>
    cases hp : t.prevBtStatus_.isCharging <;>
    by_cases hl : t.prevBtStatus_.percent < 90 <;>
    cases ok <;> simp [fires, isBalloon, hl, Nat.not_le.mpr, Nat.le_of_not_lt]

theorem checkAll_nil (t : Tasktray) : checkAll t [] = (t, []) := rfl

theorem checkAll_cons (t : Tasktray) (rd : SYSTEM_POWER_STATUS × Bool)
    (rest : List (SYSTEM_POWER_STATUS × Bool)) :
    checkAll t (rd :: rest) =
      ((checkAll (checkBatteryStatus t rd.1 rd.2).1 rest).1,
        (checkBatteryStatus t rd.1 rd.2).2 ::
          (checkAll (checkBatteryStatus t rd.1 rd.2).1 rest).2) := rfl

theorem checkAll_length (rs : List (SYSTEM_POWER_STATUS × Bool)) :
    ∀ t : Tasktray, (checkAll t rs).2.length = rs.length := by
  induction rs with
  | nil => intro t; rfl
  | cons rd rest ih => intro t; simp [checkAll_cons, ih]

/-- The `i`-th call of a run starts from the state left by the first `i` calls. -/
theorem checkAll_getElem? (rs : List (SYSTEM_POWER_STATUS × Bool)) :
    ∀ (t : Tasktray) (i : Nat), (checkAll t rs).2[i]? =
      (rs[i]?).map (fun rd => (checkBatteryStatus (checkAll t (rs.take i)).1 rd.1 rd.2).2) := by
  induction rs with
  | nil => intro t i; simp [checkAll_nil]
  | cons rd rest ih =>
      intro t i
      cases i with
      | zero => simp [checkAll_cons, checkAll_nil]
      | succ n => simp [checkAll_cons, ih]

theorem lastKnown_nil : lastKnown [] = none := rfl

theorem lastKnown_cons (rd : SYSTEM_POWER_STATUS × Bool)
    (rest : List (SYSTEM_POWER_STATUS × Bool)) :
    lastKnown (rd :: rest) =
      (lastKnown rest).or (if known rd.1 then some rd.1 else none) := by
  unfold lastKnown
  by_cases h : known rd.1 = true
  · simp only [List.map_cons, List.filter_cons, h, if_true, List.getLast?_cons]
    cases (List.filter known (List.map Prod.fst rest)).getLast? <;> rfl
  · have h' : known rd.1 = false := by simpa using h
    simp only [List.map_cons, List.filter_cons, h', Bool.false_eq_true, if_false]
    cases (List.filter known (List.map Prod.fst rest)).getLast? <;> rfl

/-- State after a run: only `prevBtStatus_` can differ, and it is the last
evaluated reading when there is one. -/
theorem checkAll_state (rs : List (SYSTEM_POWER_STATUS × Bool)) :
    ∀ t : Tasktray, (checkAll t rs).1 =
      { t with prevBtStatus_ :=
          match lastKnown rs with
          | none => t.prevBtStatus_
          | some st => ⟨charging st, st.BatteryLifePercent⟩ } := by
  induction rs with
  | nil => intro t; rfl
  | cons rd rest ih =>
      intro t
      rw [checkAll_cons, lastKnown_cons]
      simp only []
      rw [ih]
      by_cases h : known rd.1 = true
      · rw [checkBatteryStatus_known_state t rd.1 rd.2 h]
        cases lastKnown rest <;> simp [h]
      · have h' : known rd.1 = false := by simpa using h
        rw [checkBatteryStatus_unknown t rd.1 rd.2 h']
        cases lastKnown rest <;> simp [h']

theorem firings_cons (t : Tasktray) (rd : SYSTEM_POWER_STATUS × Bool)
    (rest : List (SYSTEM_POWER_STATUS × Bool)) :
    firings t (rd :: rest) =
      fires (checkBatteryStatus t rd.1 rd.2).2 ::
        firings (checkBatteryStatus t rd.1 rd.2).1 rest := rfl

theorem fires_unknown (t : Tasktray) (st : SYSTEM_POWER_STATUS) (ok : Bool)
    (h : known st = false) : fires (checkBatteryStatus t st ok).2 = false := by
  rw [checkBatteryStatus_unknown t st ok h]; rfl

theorem qualifies_recorded (st : SYSTEM_POWER_STATUS) :
    BatteryStatus.qualifies ⟨charging st, st.BatteryLifePercent⟩ = qualifies st := by
  simp [BatteryStatus.qualifies, qualifies, Bool.and_comm]

/-- The firing flags of a run are the rising edges of the condition. -/
theorem firings_eq_risingEdges (rs : List (SYSTEM_POWER_STATUS × Bool)) :
    ∀ t : Tasktray, firings t rs = risingEdges t.prevBtStatus_.qualifies rs := by
  induction rs with
  | nil => intro t; rfl
  | cons rd rest ih =>
      intro t
      rw [firings_cons, ih]
      by_cases h : known rd.1 = true
      · rw [checkBatteryStatus_known_fires t rd.1 rd.2 h,
          checkBatteryStatus_known_state t rd.1 rd.2 h]
        simp only [risingEdges, h, if_true, qualifies_recorded]
      · have h' : known rd.1 = false := by simpa using h
        rw [fires_unknown t rd.1 rd.2 h', checkBatteryStatus_unknown t rd.1 rd.2 h']
        simp only [risingEdges, h', Bool.false_eq_true, if_false]

theorem evaluated_cons (rd : SYSTEM_POWER_STATUS × Bool)
    (rest : List (SYSTEM_POWER_STATUS × Bool)) :
    evaluated (rd :: rest) = if known rd.1 then rd :: evaluated rest else evaluated rest := by
  simp only [evaluated, List.filter_cons]

/-- Rising edges and run ends count the same runs, up to a run already open at
the start. -/
theorem risingEdges_count (rs : List (SYSTEM_POWER_STATUS × Bool)) :
    ∀ q : Bool, (risingEdges q rs).count true +
        (if (q && ((evaluated rs).map (fun rd => qualifies rd.1)).headD false) = true
          then 1 else 0) =
      countRuns ((evaluated rs).map (fun rd => qualifies rd.1)) := by
  induction rs with
  | nil => intro q; simp [risingEdges, evaluated, countRuns]
  | cons rd rest ih =>
      intro q
      by_cases h : known rd.1 = true
      · simp only [risingEdges, evaluated_cons, h, if_true, List.map_cons, List.headD_cons]
        cases hb : qualifies rd.1
        · have := ih false
          simp only [Bool.false_and, Bool.false_eq_true, if_false, Nat.add_zero] at this
          simp [countRuns, this]
        · have := ih true
          generalize hL : List.map (fun rd => qualifies rd.1) (evaluated rest) = L at this ⊢
          cases L with
          | nil =>
              simp only [List.headD_nil, Bool.and_false, Bool.false_eq_true, if_false,
                Nat.add_zero] at this
              cases q <;> simp [countRuns, this]
          | cons b L' =>
              cases b
              · simp only [List.headD_cons, Bool.and_false, Bool.false_eq_true, if_false,
                  Nat.add_zero, countRuns] at this
                cases q <;> simp [countRuns, this]
              · simp only [List.headD_cons, Bool.and_true, if_true] at this
                cases q <;> simp [countRuns, ← this]
      · have h' : known rd.1 = false := by simpa using h
        simp only [risingEdges, evaluated_cons, h', Bool.false_eq_true, if_false]
        rw [List.count_cons]
        simpa using ih q

/-- C1: for a reading with a known percentage, one call of `checkBatteryStatus`
fires the "crossed 90%" notification if and only if the percentage is at least 90,
the charging bit (value 8) of the battery flag is set, and the previous status was
not charging or was below 90; a call never shows more than one balloon. -/
theorem checkBatteryStatus_fires_iff (t : Tasktray) (st : SYSTEM_POWER_STATUS) (ok : Bool)
    (hk : st.BatteryLifePercent ≠ 255) :
    (fires (checkBatteryStatus t st ok).2 = true ↔
      (90 ≤ st.BatteryLifePercent ∧ st.BatteryFlag / 8 % 2 = 1 ∧
        (t.prevBtStatus_.isCharging = false ∨ t.prevBtStatus_.percent < 90))) ∧
    (checkBatteryStatus t st ok).2.countP isBalloon ≤ 1 := by
  have hk' : known st = true := by simpa [known] using hk
  refine ⟨?_, ?_⟩
  · rw [checkBatteryStatus_known_fires t st ok hk']
    simp only [qualifies, charging, BatteryStatus.qualifies, Bool.and_eq_true, decide_eq_true_eq,
      Bool.not_eq_true', Bool.and_eq_false_iff, decide_eq_false_iff_not, Nat.not_le]
    tauto
  · cases ok <;> simp [checkBatteryStatus] <;> split_ifs <;> simp [isBalloon]

theorem checkBatteryStatus_fires_iff_witness :
    (92 : Nat) ≠ 255 ∧ fires (checkBatteryStatus Tasktray.init ⟨8, 92⟩ true).2 = true :=
  ⟨by decide,
    (checkBatteryStatus_fires_iff Tasktray.init ⟨8, 92⟩ true (by decide)).1.mpr
      ⟨by decide, by decide, Or.inl rfl⟩⟩

theorem firings_getElem? (t : Tasktray) (rs : List (SYSTEM_POWER_STATUS × Bool)) (i : Nat) :
    (firings t rs)[i]? =
      (rs[i]?).map (fun rd => fires (checkBatteryStatus (checkAll t (rs.take i)).1 rd.1 rd.2).2) := by
  simp only [firings, List.getElem?_map, checkAll_getElem?, Option.map_map]
  rfl

/-- Whether the reading recorded after a run satisfies the condition. -/
theorem checkAll_prev_qualifies (t : Tasktray) (l : List (SYSTEM_POWER_STATUS × Bool)) :
    (checkAll t l).1.prevBtStatus_.qualifies =
      match lastKnown l with
      | none => t.prevBtStatus_.qualifies
      | some p => qualifies p := by
  rw [checkAll_state]
  cases lastKnown l with
  | none => rfl
  | some p => exact qualifies_recorded p

theorem firingsOnKnown_eq (rs : List (SYSTEM_POWER_STATUS × Bool)) :
    ∀ t : Tasktray, firingsOnKnown t rs = firings t (evaluated rs) := by
  induction rs with
  | nil => intro t; rfl
  | cons rd rest ih =>
      intro t
      have ih' := ih (checkBatteryStatus t rd.1 rd.2).1
      unfold firingsOnKnown at ih' ⊢
      rw [firings_cons, evaluated_cons, List.zip_cons_cons, List.filter_cons]
      by_cases h : known rd.1 = true
      · simp only [h, if_true, List.map_cons, firings_cons, ih']
      · have h' : known rd.1 = false := by simpa using h
        simp only [h', Bool.false_eq_true, if_false, ih']
        rw [checkBatteryStatus_unknown t rd.1 rd.2 h']

theorem checkAll_evaluated (rs : List (SYSTEM_POWER_STATUS × Bool)) :
    ∀ t : Tasktray, (checkAll t (evaluated rs)).1 = (checkAll t rs).1 := by
  induction rs with
  | nil => intro t; rfl
  | cons rd rest ih =>
      intro t
      rw [evaluated_cons]
      by_cases h : known rd.1 = true
      · simp only [h, if_true, checkAll_cons, ih]
      · have h' : known rd.1 = false := by simpa using h
        simp only [h', Bool.false_eq_true, if_false, checkAll_cons, ih]
        rw [checkBatteryStatus_unknown t rd.1 rd.2 h']

/-! ### Teardown and construction: state -/

/-- After `terminate` the monitor holds no subscription, no window and no class
token, whatever the release calls answered; nothing else changes. -/
theorem terminate_state (t : Tasktray) (o : ReleaseOutcome) :
    (terminate t o).1 = { t with hpns_ := [], hwnd_ := 0, wndAtom_ := none } := by
  obtain ⟨hwnd, hpn, hpns, atom, prev⟩ := t
  cases hpns <;> by_cases hw : hwnd = 0 <;> cases atom <;> simp [terminate, hw]

theorem setup_prev (t : Tasktray) (o : SetupOutcome) :
    (setup t o).2.1.prevBtStatus_ = t.prevBtStatus_ := by
  unfold setup
  split_ifs <;> rfl

theorem construct_prev (o : SetupOutcome) (r : ReleaseOutcome) :
    (Tasktray.construct o r).1.prevBtStatus_ = ⟨false, 0⟩ := by
  simp only [Tasktray.construct]
  split_ifs
  · simp only [terminate_state, setup_prev]; rfl
  · simp only [setup_prev]; rfl

/-- C2: starting from the initial previous status, the notification fires exactly
on the first reading of each maximal run of consecutive evaluated readings that
satisfy "percent ≥ 90 and charging": a call fires iff its reading is evaluated,
satisfies the condition, and the immediately preceding evaluated reading (if any)
does not; the number of firings is the number of maximal runs; and the two
scenarios of the specification fire on readings 2, 5 and on readings 1, 3. -/
theorem edge_trigger (t : Tasktray) (h0 : t.prevBtStatus_ = ⟨false, 0⟩)
    (rs : List (SYSTEM_POWER_STATUS × Bool)) :
    (∀ i : Nat, (firings t rs)[i]? = some true ↔
        ∃ rd, rs[i]? = some rd ∧ known rd.1 = true ∧ qualifies rd.1 = true ∧
          ∀ p, lastKnown (rs.take i) = some p → qualifies p = false) ∧
    (firings t rs).count true = countRuns ((evaluated rs).map (fun rd => qualifies rd.1)) ∧
    firings t [chg 70, chg 92, chg 95, chg 60, chg 91] = [false, true, false, false, true] ∧
    firings t [chg 92, dis 92, chg 92] = [true, false, true] := by
  refine ⟨?_, ?_, ?_, ?_⟩
  · intro i
    rw [firings_getElem?]
    cases hi : rs[i]? with
    | none => simp
    | some rd =>
        simp only [Option.map_some', Option.some.injEq, exists_eq_left']
        by_cases hk : known rd.1 = true
        · rw [checkBatteryStatus_known_fires _ rd.1 rd.2 hk, checkAll_prev_qualifies, h0]
          cases hl : lastKnown (List.take i rs) with
          | none => simp [hk, BatteryStatus.qualifies]
          | some p => cases hq : qualifies p <;> simp [hk, hq]
        · have hk' : known rd.1 = false := by simpa using hk
          rw [fires_unknown _ rd.1 rd.2 hk']
          simp [hk']
  · have h := risingEdges_count rs t.prevBtStatus_.qualifies
    rw [firings_eq_risingEdges]
    rw [h0] at h ⊢
    simpa [BatteryStatus.qualifies] using h
  · rw [firings_eq_risingEdges, h0]; decide
  · rw [firings_eq_risingEdges, h0]; decide

theorem edge_trigger_witness :
    Tasktray.init.prevBtStatus_ = ⟨false, 0⟩ ∧
      firings Tasktray.init [chg 70, chg 92, chg 95, chg 60, chg 91] =
        [false, true, false, false, true] ∧
      firings Tasktray.init [chg 92, dis 92, chg 92] = [true, false, true] :=
  ⟨rfl, (edge_trigger Tasktray.init rfl []).2.2⟩

/-- C3: a reading whose percentage is unknown leaves the whole monitor state,
and so the previous status, unchanged and fires nothing; hence for every run the
final state and the firings on the evaluated readings are those of the run with
the unknown readings removed, and no call on an unknown reading fires. -/
theorem unknown_reading_ignored :
    (∀ (t : Tasktray) (flag : Nat) (ok : Bool),
        (checkBatteryStatus t ⟨flag, 255⟩ ok).1 = t ∧
        fires (checkBatteryStatus t ⟨flag, 255⟩ ok).2 = false) ∧
    (∀ (t : Tasktray) (rs : List (SYSTEM_POWER_STATUS × Bool)),
        (checkAll t rs).1 = (checkAll t (evaluated rs)).1 ∧
        firingsOnKnown t rs = firings t (evaluated rs) ∧
        ∀ (i : Nat) (rd : SYSTEM_POWER_STATUS × Bool), rs[i]? = some rd →
          rd.1.BatteryLifePercent = 255 → (firings t rs)[i]? = some false) := by
  refine ⟨?_, ?_⟩
  · intro t flag ok
    have h : known ⟨flag, 255⟩ = false := by simp [known]
    rw [checkBatteryStatus_unknown t _ ok h]
    exact ⟨rfl, rfl⟩
  · intro t rs
    refine ⟨(checkAll_evaluated rs t).symm, firingsOnKnown_eq rs t, ?_⟩
    intro i rd hi hu
    have h : known rd.1 = false := by simp [known, hu]
    rw [firings_getElem?, hi]
    simp only [Option.map_some', Option.some.injEq]
    exact fires_unknown _ rd.1 rd.2 h

/-- C4: after any run of `checkBatteryStatus` from a freshly constructed monitor
the previous status is the percentage and charging flag of the last reading whose
percentage was known, or the baseline when there was none; and every evaluated
reading overwrites the previous status with its own percentage and charging flag,
whether or not the notification fired. -/
theorem previousStatus_invariant :
    (∀ (o : SetupOutcome) (r : ReleaseOutcome) (rs : List (SYSTEM_POWER_STATUS × Bool)),
        (checkAll (Tasktray.construct o r).1 rs).1.prevBtStatus_ =
          match lastKnown rs with
          | none => ⟨false, 0⟩
          | some st => ⟨charging st, st.BatteryLifePercent⟩) ∧
    (∀ (t : Tasktray) (st : SYSTEM_POWER_STATUS) (ok : Bool), st.BatteryLifePercent ≠ 255 →
        (checkBatteryStatus t st ok).1.prevBtStatus_ = ⟨charging st, st.BatteryLifePercent⟩) := by
  refine ⟨?_, ?_⟩
  · intro o r rs
    rw [checkAll_state]
    cases lastKnown rs with
    | none => exact construct_prev o r
    | some st => rfl
  · intro t st ok hk
    have hk' : known st = true := by simpa [known] using hk
    rw [checkBatteryStatus_known_state t st ok hk']

/-! ### Teardown: release calls -/

theorem releaseCalls_append (a b : List Event) :
    releaseCalls (a ++ b) = releaseCalls a ++ releaseCalls b := by
  simp [releaseCalls]

theorem releaseCalls_unregisterEach (l : List Nat) :
    ∀ ok : Nat → Bool, releaseCalls (unregisterEach ok l) = l.map Event.unregisterPower := by
  induction l with
  | nil => intro ok; rfl
  | cons h rest ih =>
      intro ok
      rw [unregisterEach, releaseCalls_append, ih]
      cases ok 0 <;> simp [releaseCalls, isRelease]

/-- The release calls of `terminate` are those of `teardownOrder`, whatever the
calls answer. -/
theorem terminate_releaseCalls (t : Tasktray) (o : ReleaseOutcome) :
    releaseCalls (terminate t o).2 = teardownOrder t := by
  obtain ⟨hwnd, hpn, hpns, atom, prev⟩ := t
  obtain ⟨u, a, b, c⟩ := o
  have hu := releaseCalls_unregisterEach hpns u
  cases hpns <;> by_cases hw : hwnd = 0 <;> cases atom <;> cases a <;> cases b <;> cases c <;>
    simp [terminate, teardownOrder, hw, releaseCalls_append, hu] <;>
    simp [releaseCalls, isRelease]

/-- `terminate` on an inert monitor does nothing at all. -/
theorem terminate_inert (t : Tasktray) (o : ReleaseOutcome) (h : inert t) :
    terminate t o = (t, []) := by
  obtain ⟨hwnd, hpn, hpns, atom, prev⟩ := t
  obtain ⟨h1, h2, h3⟩ := h
  simp only at h1 h2 h3
  subst h1 h2 h3
  rfl

theorem terminate_makes_inert (t : Tasktray) (o : ReleaseOutcome) : inert (terminate t o).1 := by
  rw [terminate_state]
  exact ⟨rfl, rfl, rfl⟩

theorem teardownOrder_nodup (t : Tasktray) (h : t.hpns_.Nodup) : (teardownOrder t).Nodup := by
  obtain ⟨hwnd, hpn, hpns, atom, prev⟩ := t
  have hinj : Function.Injective Event.unregisterPower := by
    intro a b hab
    injection hab
  have hm : (hpns.map Event.unregisterPower).Nodup := List.Nodup.map hinj h
  by_cases hw : hwnd = 0 <;> cases atom <;>
    simp [teardownOrder, hw, List.nodup_append, hm]

/-- C5: a second `terminate` right after a first one issues no call at all and
leaves the state unchanged, for every state and every outcome of the release
calls; so the release calls of both runs together are those of the first run,
and no resource is released twice when the held subscriptions are distinct. -/
theorem teardown_idempotent (t : Tasktray) (o1 o2 : ReleaseOutcome) :
    terminate (terminate t o1).1 o2 = ((terminate t o1).1, []) ∧
    releaseCalls ((terminate t o1).2 ++ (terminate (terminate t o1).1 o2).2) =
      releaseCalls (terminate t o1).2 ∧
    (t.hpns_.Nodup →
      (releaseCalls ((terminate t o1).2 ++ (terminate (terminate t o1).1 o2).2)).Nodup) := by
  have h2 := terminate_inert (terminate t o1).1 o2 (terminate_makes_inert t o1)
  refine ⟨h2, ?_, ?_⟩
  · rw [h2, List.append_nil]
  · intro hn
    rw [h2, List.append_nil, terminate_releaseCalls]
    exact teardownOrder_nodup t hn

/-- C7: `terminate` attempts its release calls in the order subscriptions (every
held one), tray icon and window (when the window handle is valid), window class
(when a token is held), and both this sequence of attempts and the resulting
inert state are the same for any two outcomes of the release calls. -/
theorem teardown_order_best_effort (t : Tasktray) (o o' : ReleaseOutcome) :
    releaseCalls (terminate t o).2 =
      t.hpns_.map Event.unregisterPower ++
        (if t.hwnd_ ≠ 0 then [Event.notifyIconDelete t.hwnd_, Event.destroyWindow t.hwnd_]
          else []) ++
        (match t.wndAtom_ with
          | some atom => [Event.unregisterClass atom]
          | none => []) ∧
    (terminate t o).1 = { t with hpns_ := [], hwnd_ := 0, wndAtom_ := none } ∧
    inert (terminate t o).1 ∧
    releaseCalls (terminate t o').2 = releaseCalls (terminate t o).2 ∧
    (terminate t o').1 = (terminate t o).1 := by
  refine ⟨terminate_releaseCalls t o, terminate_state t o, terminate_makes_inert t o, ?_, ?_⟩
  · rw [terminate_releaseCalls, terminate_releaseCalls]
  · rw [terminate_state, terminate_state]

/-! ### Partial setup -/

theorem count_eq_count_releaseCalls (e : Event) (he : isRelease e = true) (tr : List Event) :
    tr.count e = (releaseCalls tr).count e := by
  unfold releaseCalls
  rw [List.count_filter he]

theorem releaseCalls_registerEach (hwnd : Nat) (guids : List GUID) :
    ∀ (hpn : Nat → Nat) (hpns : List Nat),
      releaseCalls (registerEach hwnd hpn guids hpns).2.2 = [] := by
  induction guids with
  | nil => intro hpn hpns; rfl
  | cons g rest ih =>
      intro hpn hpns
      unfold registerEach
      split_ifs
      · rfl
      · simp only [releaseCalls, List.filter_cons, isRelease] at ih ⊢
        exact ih _ _

/-- `setup` issues no release call. -/
theorem setup_no_release (t : Tasktray) (o : SetupOutcome) :
    releaseCalls (setup t o).2.2 = [] := by
  have hr := releaseCalls_registerEach o.hwnd
    [GUID_BATTERY_PERCENTAGE_REMAINING, GUID_ACDC_POWER_SOURCE] o.hpn t.hpns_
  unfold setup
  simp only [releaseCalls] at hr ⊢
  split_ifs <;> simp [List.filter_append, List.filter_cons, isRelease, hr]

/-- Over construction and later destruction, the release calls are exactly those
of one teardown of the state `setup` left. -/
theorem lifeTrace_releaseCalls (o : SetupOutcome) (r1 r2 : ReleaseOutcome) :
    releaseCalls (lifeTrace o r1 r2) = teardownOrder (setup Tasktray.init o).2.1 := by
  unfold lifeTrace Tasktray.destruct
  simp only [Tasktray.construct]
  split_ifs
  · rw [terminate_inert _ r2 (terminate_makes_inert _ r1)]
    simp [releaseCalls_append, setup_no_release, terminate_releaseCalls]
  · simp [releaseCalls_append, setup_no_release, terminate_releaseCalls]

theorem construct_failed (o : SetupOutcome) (r : ReleaseOutcome)
    (h : (setup Tasktray.init o).1 = false) :
    (Tasktray.construct o r).1 =
      { (setup Tasktray.init o).2.1 with hpns_ := [], hwnd_ := 0, wndAtom_ := none } := by
  simp only [Tasktray.construct, h, Bool.not_false, if_true, terminate_state]

/-- C6: when setup step `k` fails, the constructor returns a monitor that is
inert (it is back in its initial state: no subscription, no window handle, no
class token), destroying it later issues no call, and over construction plus
destruction every resource acquired by the steps before `k` (class token, window,
tray icon, first subscription) is released exactly once and no release call is
issued twice.  (The teardown also attempts the release that pairs with the failed
step when its guard holds: a class token of `0` after a failed registration, the
icon of an existing window after a failed icon add.) -/
theorem partial_setup_safety (o : SetupOutcome) (r1 r2 : ReleaseOutcome) (k : Nat)
    (hk : failedStep o = some k) :
    (setup Tasktray.init o).1 = false ∧
    (Tasktray.construct o r1).1 = Tasktray.init ∧
    inert (Tasktray.construct o r1).1 ∧
    (Tasktray.destruct (Tasktray.construct o r1).1 r2).2 = [] ∧
    (1 < k → (lifeTrace o r1 r2).count (Event.unregisterClass o.atom) = 1) ∧
    (2 < k → (lifeTrace o r1 r2).count (Event.destroyWindow o.hwnd) = 1) ∧
    (3 < k → (lifeTrace o r1 r2).count (Event.notifyIconDelete o.hwnd) = 1) ∧
    (4 < k → (lifeTrace o r1 r2).count (Event.unregisterPower (o.hpn 0)) = 1) ∧
    (releaseCalls (lifeTrace o r1 r2)).Nodup := by
  have hfail : (setup Tasktray.init o).1 = false := by
    unfold failedStep at hk
    unfold setup
    split_ifs at hk <;> simp_all [registerEach, Tasktray.init]
  have hc := construct_failed o r1 hfail
  have hrel := lifeTrace_releaseCalls o r1 r2
  have hinert : inert (Tasktray.construct o r1).1 := by rw [hc]; exact ⟨rfl, rfl, rfl⟩
  refine ⟨hfail, ?_, hinert, ?_, ?_⟩
  · rw [hc]
    simp only [Tasktray.init, Tasktray.mk.injEq, true_and, and_true]
    unfold setup
    split_ifs <;> simp [Tasktray.init]
  · simp only [Tasktray.destruct, terminate_inert _ r2 hinert]
  · rw [count_eq_count_releaseCalls (Event.unregisterClass o.atom) rfl,
      count_eq_count_releaseCalls (Event.destroyWindow o.hwnd) rfl,
      count_eq_count_releaseCalls (Event.notifyIconDelete o.hwnd) rfl,
      count_eq_count_releaseCalls (Event.unregisterPower (o.hpn 0)) rfl, hrel]
    unfold failedStep at hk
    unfold setup
    split_ifs at hk <;> injection hk with hk <;> subst hk <;>
      simp_all [registerEach, Tasktray.init, teardownOrder]

theorem partial_setup_safety_witness :
    failedStep secondSubscriptionFails = some 5 ∧
      (Tasktray.construct secondSubscriptionFails allReleased).1 = Tasktray.init ∧
      (lifeTrace secondSubscriptionFails allReleased allReleased).count
        (Event.unregisterPower 11) = 1 :=
  ⟨by decide,
    (partial_setup_safety secondSubscriptionFails allReleased allReleased 5 (by decide)).2.1,
    (partial_setup_safety secondSubscriptionFails allReleased allReleased 5
      (by decide)).2.2.2.2.2.2.2.1 (by decide)⟩

/-! ### Events of a teardown -/

theorem unregisterEach_all (l : List Nat) :
    ∀ ok : Nat → Bool, (unregisterEach ok l).all isTeardownEvent = true := by
  induction l with
  | nil => intro ok; rfl
  | cons h rest ih =>
      intro ok
      rw [unregisterEach, List.all_append, ih]
      cases ok 0 <;> simp [isTeardownEvent, isRelease]

/-- Every event of a teardown is a release call or a failure report. -/
theorem terminate_all (t : Tasktray) (o : ReleaseOutcome) :
    (terminate t o).2.all isTeardownEvent = true := by
  obtain ⟨hwnd, hpn, hpns, atom, prev⟩ := t
  obtain ⟨u, a, b, c⟩ := o
  have hu := unregisterEach_all hpns u
  cases hpns <;> by_cases hw : hwnd = 0 <;> cases atom <;> cases a <;> cases b <;> cases c <;>
    simp [terminate, hw, List.all_append, isTeardownEvent, isRelease] <;>
    simpa [isTeardownEvent, isRelease] using hu

theorem terminate_not_mem (t : Tasktray) (o : ReleaseOutcome) (e : Event)
    (he : isTeardownEvent e = false) : e ∉ (terminate t o).2 := by
  intro hmem
  have h := List.all_eq_true.mp (terminate_all t o) e hmem
  rw [he] at h
  exact Bool.false_ne_true h

theorem terminate_countP_zero (t : Tasktray) (o : ReleaseOutcome) (p : Event → Bool)
    (hp : ∀ e, isTeardownEvent e = true → p e = false) : (terminate t o).2.countP p = 0 := by
  rw [List.countP_eq_zero]
  intro e he
  have h := List.all_eq_true.mp (terminate_all t o) e he
  simp [hp e h]

theorem teardown_not_destroyMenu (e : Event) (h : isTeardownEvent e = true) :
    isDestroyMenu e = false := by
  cases e <;> simp_all [isTeardownEvent, isRelease, isDestroyMenu]

theorem teardown_not_trackPopup (e : Event) (h : isTeardownEvent e = true) :
    isTrackPopup e = false := by
  cases e <;> simp_all [isTeardownEvent, isRelease, isTrackPopup]

/-! ### Context menu -/

theorem showMenu_cursor_failed (t : Tasktray) (m : MenuOutcome) (r : ReleaseOutcome)
    (h : m.cursorOk = false) :
    showMenu t m r = some (t, [Event.getCursorPos, Event.logErr Api.GetCursorPos]) := by
  simp [showMenu, h]

theorem showMenu_create_failed (t : Tasktray) (m : MenuOutcome) (r : ReleaseOutcome)
    (h : m.cursorOk = true) (hm : m.hmenu = 0) :
    showMenu t m r =
      some (t, [Event.getCursorPos, Event.createPopupMenu, Event.logErr Api.CreatePopupMenu]) := by
  simp [showMenu, h, hm]

theorem showMenu_dismissed (t : Tasktray) (m : MenuOutcome) (r : ReleaseOutcome)
    (h : m.cursorOk = true) (hm : m.hmenu ≠ 0) (ho : m.op = Cmd.None) :
    showMenu t m r = some (t, menuOpened t m ++ menuClosed m) := by
  simp [showMenu, h, hm, ho, menuOpened, menuClosed, Cmd.Quit]

theorem showMenu_quit (t : Tasktray) (m : MenuOutcome) (r : ReleaseOutcome)
    (h : m.cursorOk = true) (hm : m.hmenu ≠ 0) (ho : m.op = Cmd.Quit) :
    showMenu t m r =
      some ((terminate t r).1, menuOpened t m ++ (terminate t r).2 ++ menuClosed m) := by
  simp [showMenu, h, hm, ho, menuOpened, menuClosed, Cmd.Quit, Cmd.None]

theorem showMenu_unreachable (t : Tasktray) (m : MenuOutcome) (r : ReleaseOutcome)
    (h : m.cursorOk = true) (hm : m.hmenu ≠ 0) (h0 : m.op ≠ Cmd.None) (h1 : m.op ≠ Cmd.Quit) :
    showMenu t m r = none := by
  simp [showMenu, h, hm, h0, h1]

/-- C10: when the cursor query and the menu creation succeed and the popup
returns one of the menu's two outcomes, `showMenu` runs the monitor's teardown
exactly when the popup returns Quit: its release calls and its final state are
those of `terminate` for Quit, and for a dismissal there is no release call and
the state is unchanged; the popup is tracked once and the created menu is destroyed
exactly once in both outcomes.  When the cursor query or the menu creation fails,
no popup is tracked, no menu is destroyed, no release call is made and the state is
unchanged. -/
theorem showMenu_outcomes (t : Tasktray) (m : MenuOutcome) (r : ReleaseOutcome) :
    (m.cursorOk = true → m.hmenu ≠ 0 → m.op = Cmd.Quit →
      showMenu t m r =
        some ((terminate t r).1, menuOpened t m ++ (terminate t r).2 ++ menuClosed m)) ∧
    (m.cursorOk = true → m.hmenu ≠ 0 → m.op = Cmd.None →
      showMenu t m r = some (t, menuOpened t m ++ menuClosed m)) ∧
    (m.cursorOk = true → m.hmenu ≠ 0 → (m.op = Cmd.None ∨ m.op = Cmd.Quit) →
      ∃ t' tr, showMenu t m r = some (t', tr) ∧
        releaseCalls tr = (if m.op = Cmd.Quit then teardownOrder t else []) ∧
        t' = (if m.op = Cmd.Quit then { t with hpns_ := [], hwnd_ := 0, wndAtom_ := none }
          else t) ∧
        tr.countP isTrackPopup = 1 ∧
        tr.countP isDestroyMenu = 1 ∧ tr.count (Event.destroyMenu m.hmenu) = 1) ∧
    (m.cursorOk = false ∨ m.hmenu = 0 →
      ∃ tr, showMenu t m r = some (t, tr) ∧
        tr.countP isTrackPopup = 0 ∧ tr.countP isDestroyMenu = 0 ∧ releaseCalls tr = []) := by
  refine ⟨showMenu_quit t m r, showMenu_dismissed t m r, ?_, ?_⟩
  · intro hc hm hop
    rcases hop with ho | ho
    · refine ⟨t, _, showMenu_dismissed t m r hc hm ho, ?_⟩
      have hne : m.op ≠ Cmd.Quit := by rw [ho]; decide
      simp only [hne, if_false]
      refine ⟨?_, trivial, ?_, ?_, ?_⟩
      · by_cases hp : m.prevWin = 0 <;> simp [releaseCalls, menuOpened, menuClosed, isRelease, hp]
      · by_cases hp : m.prevWin = 0 <;> simp [menuOpened, menuClosed, isTrackPopup, hp]
      · by_cases hp : m.prevWin = 0 <;> simp [menuOpened, menuClosed, isDestroyMenu, hp]
      · by_cases hp : m.prevWin = 0 <;> simp [menuOpened, menuClosed, hp]
    · refine ⟨_, _, showMenu_quit t m r hc hm ho, ?_⟩
      simp only [ho, if_true]
      have hd := terminate_countP_zero t r isDestroyMenu teardown_not_destroyMenu
      have hp' := terminate_countP_zero t r isTrackPopup teardown_not_trackPopup
      have hn : Event.destroyMenu m.hmenu ∉ (terminate t r).2 :=
        terminate_not_mem t r _ rfl
      refine ⟨?_, terminate_state t r, ?_, ?_, ?_⟩
      · rw [releaseCalls_append, releaseCalls_append, terminate_releaseCalls]
        by_cases hp : m.prevWin = 0 <;> simp [releaseCalls, menuOpened, menuClosed, isRelease, hp]
      · rw [List.countP_append, List.countP_append, hp']
        by_cases hp : m.prevWin = 0 <;> simp [menuOpened, menuClosed, isTrackPopup, hp]
      · rw [List.countP_append, List.countP_append, hd]
        by_cases hp : m.prevWin = 0 <;> simp [menuOpened, menuClosed, isDestroyMenu, hp]
      · rw [List.count_append, List.count_append, List.count_eq_zero.mpr hn]
        by_cases hp : m.prevWin = 0 <;> simp [menuOpened, menuClosed, hp]
  · intro h
    by_cases hc : m.cursorOk = false
    · exact ⟨_, showMenu_cursor_failed t m r hc, by simp [isTrackPopup],
        by simp [isDestroyMenu], by simp [releaseCalls, isRelease]⟩
    · have hc' : m.cursorOk = true := by simpa using hc
      have hm : m.hmenu = 0 := by
        rcases h with h | h
        · exact absurd h hc
        · exact h
      exact ⟨_, showMenu_create_failed t m r hc' hm, by simp [isTrackPopup],
        by simp [isDestroyMenu], by simp [releaseCalls, isRelease]⟩

theorem showMenu_outcomes_witness :
    showMenu runningMonitor quitChosen allReleased =
      some (Tasktray.init,
        menuOpened runningMonitor quitChosen ++
          [Event.unregisterPower 11, Event.unregisterPower 12, Event.notifyIconDelete 9,
            Event.destroyWindow 9, Event.unregisterClass 7] ++
          menuClosed quitChosen) :=
  (showMenu_outcomes runningMonitor quitChosen allReleased).1 rfl (by decide) rfl

/-! ### Message handling -/

theorem handleMessage_close (t : Tasktray) (env : HandlerEnv) (wParam : Nat) (lParam : Int) :
    handleMessage t env WM_CLOSE wParam lParam =
      some ((terminate t env.release).1, (terminate t env.release).2, 0) := by
  simp [handleMessage]

theorem handleMessage_destroy (t : Tasktray) (env : HandlerEnv) (wParam : Nat) (lParam : Int) :
    handleMessage t env WM_DESTROY wParam lParam = some (t, [Event.postQuitMessage 0], 0) := by
  simp [handleMessage, WM_DESTROY, WM_CLOSE]

theorem handleMessage_trayClick (t : Tasktray) (env : HandlerEnv) (uMsg wParam : Nat)
    (lParam : Int) (h : trayClick uMsg wParam lParam) :
    handleMessage t env uMsg wParam lParam =
      (showMenu t env.menu env.release).map (fun s =>
        (s.1, s.2 ++ [Event.defWindowProc s.1.hwnd_ uMsg wParam lParam], env.defResult)) := by
  obtain ⟨h1, h2, h3⟩ := h
  subst h1 h2
  have hc : WM_TASKTRAY_CALLBACK ≠ WM_CLOSE := by decide
  have hd : WM_TASKTRAY_CALLBACK ≠ WM_DESTROY := by decide
  simp only [handleMessage, hc, hd, if_false, if_true, h3]
  cases showMenu t env.menu env.release <;> rfl

theorem handleMessage_battery (t : Tasktray) (env : HandlerEnv) (lParam : Int)
    (h : env.powerSetting lParam = GUID_BATTERY_PERCENTAGE_REMAINING) :
    handleMessage t env WM_POWERBROADCAST PBT_POWERSETTINGCHANGE lParam =
      some ((checkBatteryStatus t env.reading1.1 env.reading1.2).1,
        (checkBatteryStatus t env.reading1.1 env.reading1.2).2 ++
          [Event.defWindowProc t.hwnd_ WM_POWERBROADCAST PBT_POWERSETTINGCHANGE lParam],
        env.defResult) := by
  have hc : WM_POWERBROADCAST ≠ WM_CLOSE := by decide
  have hd : WM_POWERBROADCAST ≠ WM_DESTROY := by decide
  have ht : WM_POWERBROADCAST ≠ WM_TASKTRAY_CALLBACK := by decide
  have hg : GUID_BATTERY_PERCENTAGE_REMAINING ≠ GUID_ACDC_POWER_SOURCE := by decide
  have hw : (checkBatteryStatus t env.reading1.1 env.reading1.2).1.hwnd_ = t.hwnd_ := by
    unfold checkBatteryStatus; split_ifs <;> rfl
  simp only [handleMessage, hc, hd, ht, h, hg, if_false, if_true, hw]

theorem handleMessage_acdc (t : Tasktray) (env : HandlerEnv) (lParam : Int)
    (h : env.powerSetting lParam = GUID_ACDC_POWER_SOURCE) :
    handleMessage t env WM_POWERBROADCAST PBT_POWERSETTINGCHANGE lParam =
      some ((checkBatteryStatus t env.reading2.1 env.reading2.2).1,
        (checkBatteryStatus t env.reading2.1 env.reading2.2).2 ++
          [Event.defWindowProc t.hwnd_ WM_POWERBROADCAST PBT_POWERSETTINGCHANGE lParam],
        env.defResult) := by
  have hc : WM_POWERBROADCAST ≠ WM_CLOSE := by decide
  have hd : WM_POWERBROADCAST ≠ WM_DESTROY := by decide
  have ht : WM_POWERBROADCAST ≠ WM_TASKTRAY_CALLBACK := by decide
  have hg : GUID_ACDC_POWER_SOURCE ≠ GUID_BATTERY_PERCENTAGE_REMAINING := by decide
  have hw : (checkBatteryStatus t env.reading2.1 env.reading2.2).1.hwnd_ = t.hwnd_ := by
    unfold checkBatteryStatus; split_ifs <;> rfl
  simp only [handleMessage, hc, hd, ht, h, hg, if_false, if_true, hw, List.nil_append]

theorem handleMessage_other (t : Tasktray) (env : HandlerEnv) (uMsg wParam : Nat)
    (lParam : Int) (hc : uMsg ≠ WM_CLOSE) (hd : uMsg ≠ WM_DESTROY)
    (ht : ¬ trayClick uMsg wParam lParam) (hp : ¬ watchedPowerChange env uMsg wParam lParam) :
    handleMessage t env uMsg wParam lParam =
      some (t, [Event.defWindowProc t.hwnd_ uMsg wParam lParam], env.defResult) := by
  unfold trayClick at ht
  unfold watchedPowerChange at hp
  unfold handleMessage
  simp only [hc, hd, if_false]
  split_ifs <;> first | rfl | tauto

theorem checkBatteryStatus_trace (t : Tasktray) (st : SYSTEM_POWER_STATUS) (ok : Bool) :
    (checkBatteryStatus t st ok).2.count Event.getSystemPowerStatus = 1 ∧
      Event.getCursorPos ∉ (checkBatteryStatus t st ok).2 := by
  cases ok <;> simp [checkBatteryStatus] <;> split_ifs <;> simp

/-- When the popup returns one of the menu's two outcomes, `showMenu` returns,
having queried the cursor and not the power status. -/
theorem showMenu_returns (t : Tasktray) (m : MenuOutcome) (r : ReleaseOutcome)
    (hop : m.op = Cmd.None ∨ m.op = Cmd.Quit) :
    ∃ t' tr, showMenu t m r = some (t', tr) ∧ Event.getCursorPos ∈ tr ∧
      Event.getSystemPowerStatus ∉ tr := by
  by_cases hc : m.cursorOk = false
  · exact ⟨_, _, showMenu_cursor_failed t m r hc, by simp, by simp⟩
  · have hc' : m.cursorOk = true := by simpa using hc
    by_cases hm : m.hmenu = 0
    · exact ⟨_, _, showMenu_create_failed t m r hc' hm, by simp, by simp⟩
    · rcases hop with ho | ho
      · refine ⟨_, _, showMenu_dismissed t m r hc' hm ho, by simp [menuOpened], ?_⟩
        by_cases hp : m.prevWin = 0 <;> simp [menuOpened, menuClosed, hp]
      · have hn : Event.getSystemPowerStatus ∉ (terminate t r).2 :=
          terminate_not_mem t r _ rfl
        refine ⟨_, _, showMenu_quit t m r hc' hm ho, by simp [menuOpened], ?_⟩
        by_cases hp : m.prevWin = 0 <;> simp [menuOpened, menuClosed, hp, hn]

/-- C8: message routing.  Whenever the popup of a tray click returns one of the
menu's two outcomes, `handleMessage` returns; a window-close request runs
`terminate` and returns 0; a window-destroyed notification posts the quit signal
and returns 0; the context menu is shown (the cursor is queried) if and only if
the message is a tray click, and then the handler does what `showMenu` does and
defers to the default handler; the battery status is read exactly once if and
only if the message is a watched power change, never more than once, and then
the handler does what one `checkBatteryStatus` does and defers to the default
handler; every other message leaves the state unchanged and only defers to the
default handler. -/
theorem message_routing (t : Tasktray) (env : HandlerEnv) (uMsg wParam : Nat) (lParam : Int)
    (hop : trayClick uMsg wParam lParam → env.menu.op = Cmd.None ∨ env.menu.op = Cmd.Quit) :
    ∃ t' tr ret, handleMessage t env uMsg wParam lParam = some (t', tr, ret) ∧
      (uMsg = WM_CLOSE →
        t' = (terminate t env.release).1 ∧ tr = (terminate t env.release).2 ∧ ret = 0) ∧
      (uMsg = WM_DESTROY → t' = t ∧ tr = [Event.postQuitMessage 0] ∧ ret = 0) ∧
      (Event.getCursorPos ∈ tr ↔ trayClick uMsg wParam lParam) ∧
      (trayClick uMsg wParam lParam →
        ∃ mtr, showMenu t env.menu env.release = some (t', mtr) ∧
          tr = mtr ++ [Event.defWindowProc t'.hwnd_ uMsg wParam lParam]) ∧
      (tr.count Event.getSystemPowerStatus = 1 ↔ watchedPowerChange env uMsg wParam lParam) ∧
      tr.count Event.getSystemPowerStatus ≤ 1 ∧
      (watchedPowerChange env uMsg wParam lParam →
        ∃ rd, (rd = env.reading1 ∨ rd = env.reading2) ∧
          t' = (checkBatteryStatus t rd.1 rd.2).1 ∧
          tr = (checkBatteryStatus t rd.1 rd.2).2 ++
            [Event.defWindowProc t.hwnd_ uMsg wParam lParam]) ∧
      (uMsg ≠ WM_CLOSE → uMsg ≠ WM_DESTROY → ¬ trayClick uMsg wParam lParam →
        ¬ watchedPowerChange env uMsg wParam lParam →
        t' = t ∧ tr = [Event.defWindowProc t.hwnd_ uMsg wParam lParam] ∧
          ret = env.defResult) := by
  by_cases hc : uMsg = WM_CLOSE
  · subst hc
    have h1 : ¬ trayClick WM_CLOSE wParam lParam := by
      intro h; exact absurd h.1 (by decide)
    have h2 : ¬ watchedPowerChange env WM_CLOSE wParam lParam := by
      intro h; exact absurd h.1 (by decide)
    have hn1 : Event.getCursorPos ∉ (terminate t env.release).2 := terminate_not_mem _ _ _ rfl
    have hn2 : Event.getSystemPowerStatus ∉ (terminate t env.release).2 :=
      terminate_not_mem _ _ _ rfl
    refine ⟨_, _, _, handleMessage_close t env wParam lParam, ?_⟩
    have hcd : WM_CLOSE ≠ WM_DESTROY := by decide
    simp [h1, h2, hn1, List.count_eq_zero.mpr hn2, hcd]
  · by_cases hd : uMsg = WM_DESTROY
    · subst hd
      have h1 : ¬ trayClick WM_DESTROY wParam lParam := by
        intro h; exact absurd h.1 (by decide)
      have h2 : ¬ watchedPowerChange env WM_DESTROY wParam lParam := by
        intro h; exact absurd h.1 (by decide)
      refine ⟨_, _, _, handleMessage_destroy t env wParam lParam, ?_⟩
      simp [h1, h2, hc]
    · by_cases ht : trayClick uMsg wParam lParam
      · obtain ⟨t', mtr, hs, hin, hnot⟩ := showMenu_returns t env.menu env.release (hop ht)
        have h2 : ¬ watchedPowerChange env uMsg wParam lParam := by
          intro h
          have := ht.1
          rw [h.1] at this
          exact absurd this (by decide)
        refine ⟨t', mtr ++ [Event.defWindowProc t'.hwnd_ uMsg wParam lParam], env.defResult,
          ?_, ?_⟩
        · rw [handleMessage_trayClick t env uMsg wParam lParam ht, hs]; rfl
        · simp [hc, hd, ht, h2, hin, hs, List.count_eq_zero.mpr hnot]
      · by_cases hw : watchedPowerChange env uMsg wParam lParam
        · obtain ⟨hu, hwp, hg⟩ := hw
          subst hu hwp
          rcases hg with hg | hg
          · have htr := checkBatteryStatus_trace t env.reading1.1 env.reading1.2
            refine ⟨_, _, _, handleMessage_battery t env lParam hg, ?_⟩
            simp [hc, hd, ht, watchedPowerChange, hg, htr.1, htr.2]
          · have htr := checkBatteryStatus_trace t env.reading2.1 env.reading2.2
            refine ⟨_, _, _, handleMessage_acdc t env lParam hg, ?_⟩
            simp [hc, hd, ht, watchedPowerChange, hg, htr.1, htr.2]
        · refine ⟨_, _, _, handleMessage_other t env uMsg wParam lParam hc hd ht hw, ?_⟩
          simp [hc, hd, ht, hw]

theorem message_routing_witness :
    (trayClick WM_TASKTRAY_CALLBACK tasktrayIconID WM_LBUTTONUP →
        quitEnv.menu.op = Cmd.None ∨ quitEnv.menu.op = Cmd.Quit) ∧
      ∃ t' tr ret,
        handleMessage runningMonitor quitEnv WM_TASKTRAY_CALLBACK tasktrayIconID WM_LBUTTONUP =
          some (t', tr, ret) ∧ Event.getCursorPos ∈ tr := by
  refine ⟨fun _ => Or.inr rfl, ?_⟩
  obtain ⟨t', tr, ret, h, _, _, hcur, _⟩ :=
    message_routing runningMonitor quitEnv WM_TASKTRAY_CALLBACK tasktrayIconID WM_LBUTTONUP
      (fun _ => Or.inr rfl)
  exact ⟨t', tr, ret, h, hcur.mpr ⟨rfl, rfl, Or.inl rfl⟩⟩

/-! ### Entry point -/

/-- The dispatch loop only appends to the trace it starts from, and what it
appends starts with a message fetch. -/
theorem messageLoop_trace (dtor : ReleaseOutcome) (script : List Fetched) :
    ∀ (t : Tasktray) (tr : List Event),
      ∃ rest, (messageLoop dtor t tr script).trace = tr ++ rest ∧
        (script = [] → rest = []) ∧ (script ≠ [] → rest.head? = some Event.getMessage) := by
  induction script with
  | nil => intro t tr; exact ⟨[], by simp [messageLoop, Run.trace], fun _ => rfl, fun h => absurd rfl h⟩
  | cons f rest ih =>
      intro t tr
      unfold messageLoop
      split_ifs with h0 h1 hw
      · exact ⟨[Event.getMessage] ++ (Tasktray.destruct t dtor).2,
          by simp only [Run.trace, List.append_assoc], by simp, fun _ => rfl⟩
      · exact ⟨[Event.getMessage, Event.logErr Api.GetMessageW] ++ (Tasktray.destruct t dtor).2,
          by simp only [Run.trace, List.append_assoc], by simp, fun _ => rfl⟩
      · cases hm : handleMessage t f.env f.uMsg f.wParam f.lParam with
        | none =>
            exact ⟨[Event.getMessage, Event.translateMessage, Event.dispatchMessage],
              rfl, by simp, fun _ => rfl⟩
        | some s =>
            obtain ⟨r', hr', _, _⟩ := ih s.1
              (tr ++ [Event.getMessage, Event.translateMessage, Event.dispatchMessage] ++ s.2.1)
            refine ⟨[Event.getMessage, Event.translateMessage, Event.dispatchMessage] ++ s.2.1 ++ r',
              ?_, by simp, fun _ => rfl⟩
            simp only [List.append_assoc] at hr' ⊢
            exact hr'
      · obtain ⟨r', hr', _, _⟩ := ih t
          (tr ++ [Event.getMessage, Event.translateMessage, Event.dispatchMessage])
        refine ⟨[Event.getMessage, Event.translateMessage, Event.dispatchMessage] ++ r',
          ?_, by simp, fun _ => rfl⟩
        simp only [List.append_assoc] at hr' ⊢
        exact hr'

theorem setup_no_getMessage (t : Tasktray) (o : SetupOutcome) :
    Event.getMessage ∉ (setup t o).2.2 := by
  unfold setup
  simp only [registerEach]
  split_ifs <;> simp

theorem setup_registers_class (t : Tasktray) (o : SetupOutcome) :
    Event.registerClass ∈ (setup t o).2.2 := by
  unfold setup
  split_ifs <;> simp

theorem construct_trace (o : SetupOutcome) (r : ReleaseOutcome) :
    Event.getMessage ∉ (Tasktray.construct o r).2 ∧
      Event.registerClass ∈ (Tasktray.construct o r).2 := by
  have h1 := setup_no_getMessage Tasktray.init o
  have h2 := setup_registers_class Tasktray.init o
  have h3 : Event.getMessage ∉ (terminate (setup Tasktray.init o).2.1 r).2 :=
    terminate_not_mem _ _ _ rfl
  simp only [Tasktray.construct]
  split_ifs <;> simp [h1, h2, h3]

/-- C9: when the battery flag read at startup has the no-system-battery bit
(value 128) set, the entry point returns exit status 0 having only read the power
status and reported: its trace has no window-class, window, tray-icon or
subscription creation and no message fetch.  When the bit is clear the trace is
the status read, then the whole construction of the monitor, then what the loop
does, which begins with a message fetch; the construction registers the window
class and fetches no message. -/
theorem no_battery_short_circuit (status : SYSTEM_POWER_STATUS) (o : SetupOutcome)
    (ctor dtor : ReleaseOutcome) (script : List Fetched) :
    (status.BatteryFlag / 128 % 2 = 1 →
      wWinMain status o ctor dtor script =
        Run.exited 0 [Event.getSystemPowerStatus, Event.logErr Api.NoBattery] ∧
      (wWinMain status o ctor dtor script).exitCode = some 0 ∧
      (wWinMain status o ctor dtor script).trace.countP startsMonitor = 0) ∧
    (status.BatteryFlag / 128 % 2 ≠ 1 →
      ∃ rest, (wWinMain status o ctor dtor script).trace =
          Event.getSystemPowerStatus :: (Tasktray.construct o ctor).2 ++ rest ∧
        (script = [] → rest = []) ∧
        (script ≠ [] → rest.head? = some Event.getMessage) ∧
        Event.registerClass ∈ (Tasktray.construct o ctor).2 ∧
        Event.getMessage ∉ (Tasktray.construct o ctor).2) := by
  have hb := land_pow_ne_zero_iff status.BatteryFlag 7
  norm_num at hb
  refine ⟨?_, ?_⟩
  · intro h
    have h' : ¬ (status.BatteryFlag &&& 128 = 0) := hb.mpr h
    have hw : wWinMain status o ctor dtor script =
        Run.exited 0 [Event.getSystemPowerStatus, Event.logErr Api.NoBattery] := by
      simp [wWinMain, BatteryFlag.NoSystemBattery, h']
    rw [hw]
    exact ⟨rfl, rfl, rfl⟩
  · intro h
    have h' : status.BatteryFlag &&& 128 = 0 := by
      by_contra hne
      exact h (hb.mp hne)
    obtain ⟨rest, hr, h1, h2⟩ := messageLoop_trace dtor script (Tasktray.construct o ctor).1
      (Event.getSystemPowerStatus :: (Tasktray.construct o ctor).2)
    have hc := construct_trace o ctor
    refine ⟨rest, ?_, h1, h2, hc.2, hc.1⟩
    simp only [wWinMain, BatteryFlag.NoSystemBattery, h', ne_eq, not_true_eq_false, if_false]
    exact hr

theorem no_battery_short_circuit_witness :
    (128 : Nat) / 128 % 2 = 1 ∧
      wWinMain ⟨128, 255⟩ allAcquired allReleased allReleased [] =
        Run.exited 0 [Event.getSystemPowerStatus, Event.logErr Api.NoBattery] :=
  ⟨by decide,
    ((no_battery_short_circuit ⟨128, 255⟩ allAcquired allReleased allReleased []).1
      (by decide)).1⟩

/-! ### Concrete runs -/

theorem unknown_reading_ignored_witness :
    (checkAll runningMonitor [chg 92, (⟨8, 255⟩, true), chg 95]).1 =
        (checkAll runningMonitor [chg 92, chg 95]).1 ∧
      firingsOnKnown runningMonitor [chg 92, (⟨8, 255⟩, true), chg 95] = [true, false] :=
  ⟨(unknown_reading_ignored.2 runningMonitor [chg 92, (⟨8, 255⟩, true), chg 95]).1,
    (unknown_reading_ignored.2 runningMonitor [chg 92, (⟨8, 255⟩, true), chg 95]).2.1.trans
      (by decide)⟩

theorem previousStatus_invariant_witness :
    (checkAll (Tasktray.construct allAcquired allReleased).1
        [chg 70, (⟨8, 255⟩, true)]).1.prevBtStatus_ = ⟨true, 70⟩ :=
  previousStatus_invariant.1 allAcquired allReleased [chg 70, (⟨8, 255⟩, true)]

theorem teardown_idempotent_witness :
    terminate (terminate runningMonitor allReleased).1 allReleased = (Tasktray.init, []) ∧
      (releaseCalls ((terminate runningMonitor allReleased).2 ++
        (terminate (terminate runningMonitor allReleased).1 allReleased).2)).Nodup :=
  ⟨(teardown_idempotent runningMonitor allReleased allReleased).1,
    (teardown_idempotent runningMonitor allReleased allReleased).2.2 (by decide)⟩

theorem teardown_order_best_effort_witness :
    releaseCalls (terminate runningMonitor allReleased).2 =
      [Event.unregisterPower 11, Event.unregisterPower 12, Event.notifyIconDelete 9,
        Event.destroyWindow 9, Event.unregisterClass 7] :=
  (teardown_order_best_effort runningMonitor allReleased allReleased).1

end Btwatch
